import Mathlib

/-!
Verification of the RCD recidivism simulator core
(`src/rcd_recidivism_simulator_3d.py`).

The script reads 14 bounded slider scores, derives five indicators
(γ, δ, Θ, μ, ∇S) by fixed linear formulas, classifies each indicator
into a display color via `get_color`, and renders a 3D surface
`z = gamma/100 * exp(-delta/100 * x) + entropy/100 * sin(2*pi*y)`.

Slider values are integers, but all arithmetic in the script is Python
float arithmetic with exact small rationals, so the derivation and
classification layers are embedded over `ℚ`; the surface, which uses
`exp` and `sin`, is embedded over `ℝ`.
-/

/-- The 14 slider inputs of the script (lines 27-41), each an integer
slider in [0,100] with default 50.  Field names follow the Python
variable names. -/
structure InputScores where
  eid : ℚ
  bxd : ℚ
  thd : ℚ
  intr : ℚ
  somc : ℚ
  cog : ℚ
  impulsivity : ℚ
  support : ℚ
  pclr_aff : ℚ
  pclr_antisocial : ℚ
  pai_agg : ℚ
  pai_bor : ℚ
  mcmi_antisocial : ℚ
  mcmi_borderline : ℚ
  deriving DecidableEq, Repr

/-- All 14 fields lie in [0,100], the range enforced by the sliders. -/
def InBounds (s : InputScores) : Prop :=
  0 ≤ s.eid ∧ s.eid ≤ 100 ∧
  0 ≤ s.bxd ∧ s.bxd ≤ 100 ∧
  0 ≤ s.thd ∧ s.thd ≤ 100 ∧
  0 ≤ s.intr ∧ s.intr ≤ 100 ∧
  0 ≤ s.somc ∧ s.somc ≤ 100 ∧
  0 ≤ s.cog ∧ s.cog ≤ 100 ∧
  0 ≤ s.impulsivity ∧ s.impulsivity ≤ 100 ∧
  0 ≤ s.support ∧ s.support ≤ 100 ∧
  0 ≤ s.pclr_aff ∧ s.pclr_aff ≤ 100 ∧
  0 ≤ s.pclr_antisocial ∧ s.pclr_antisocial ≤ 100 ∧
  0 ≤ s.pai_agg ∧ s.pai_agg ≤ 100 ∧
  0 ≤ s.pai_bor ∧ s.pai_bor ≤ 100 ∧
  0 ≤ s.mcmi_antisocial ∧ s.mcmi_antisocial ≤ 100 ∧
  0 ≤ s.mcmi_borderline ∧ s.mcmi_borderline ≤ 100

instance (s : InputScores) : Decidable (InBounds s) := by
  unfold InBounds; infer_instance

/-- Line 49: `gamma = max(0, 100 - (eid + thd + cog) / 3 - mcmi_borderline / 4)`. -/
def gamma (s : InputScores) : ℚ :=
  max 0 (100 - (s.eid + s.thd + s.cog) / 3 - s.mcmi_borderline / 4)

/-- Line 50: `delta = (bxd + impulsivity + pclr_antisocial + pai_bor + mcmi_antisocial) / 5`. -/
def delta (s : InputScores) : ℚ :=
  (s.bxd + s.impulsivity + s.pclr_antisocial + s.pai_bor + s.mcmi_antisocial) / 5

/-- Line 51: `theta = max(0, 100 - bxd)`. -/
def theta (s : InputScores) : ℚ :=
  max 0 (100 - s.bxd)

/-- Line 52: `mu = max(0, 100 - (intr + support + pclr_aff + mcmi_borderline) / 4)`. -/
def mu (s : InputScores) : ℚ :=
  max 0 (100 - (s.intr + s.support + s.pclr_aff + s.mcmi_borderline) / 4)

/-- Line 53: `entropy = (eid + somc + pai_agg) / 3`. -/
def entropy (s : InputScores) : ℚ :=
  (s.eid + s.somc + s.pai_agg) / 3

/-- The five derived indicators, in the order γ, δ, Θ, μ, ∇S of lines 49-53. -/
structure DerivedIndicators where
  gamma : ℚ
  delta : ℚ
  theta : ℚ
  mu : ℚ
  entropy : ℚ
  deriving DecidableEq, Repr

/-- The derivation step of the pipeline: lines 49-53 computed together. -/
def deriveIndicators (s : InputScores) : DerivedIndicators :=
  { gamma := gamma s
    delta := delta s
    theta := theta s
    mu := mu s
    entropy := entropy s }

/-- An `InputScores` with the same value `v` in all 14 fields. -/
def scoresAll (v : ℚ) : InputScores :=
  ⟨v, v, v, v, v, v, v, v, v, v, v, v, v, v⟩

/-- Lines 101-122: `get_color(value, var)`, the threshold-to-color
classifier.  The dispatch compares the identity string against the five
one-or-two-character indicator names and falls through to `'gray'`. -/
def get_color (value : ℚ) (var : String) : String :=
  if var = "γ" then
    if value < 40 then "crimson" else if value < 70 then "gold" else "limegreen"
  else if var = "δ" then
    if value > 60 then "crimson" else if value > 30 then "gold" else "limegreen"
  else if var = "Θ" then
    if value < 40 then "crimson" else if value < 70 then "gold" else "limegreen"
  else if var = "μ" then
    if value < 40 then "crimson" else if value < 70 then "gold" else "limegreen"
  else if var = "∇S" then
    if value > 60 then "crimson" else if value > 30 then "gold" else "limegreen"
  else "gray"

/-- Line 124: the bar-chart labels. -/
def rcd_labels : List String :=
  ["γ (Phase Stability)", "δ (Symbolic Drift)", "Θ (Karmic Resistance)",
   "μ (Recursive Coherence)", "∇S (Entropy Gradient)"]

/-- Line 125: the bar-chart values, in label order. -/
def rcd_values (s : InputScores) : List ℚ :=
  [gamma s, delta s, theta s, mu s, entropy s]

/-- Line 126: `rcd_colors = [get_color(v, l[0]) for v, l in zip(rcd_values, rcd_labels)]`.
Python `l[0]` is the first character of the label, embedded as `String.take 1`. -/
def rcd_colors (s : InputScores) : List String :=
  List.zipWith (fun v l => get_color v (l.take 1)) (rcd_values s) rcd_labels

/-- Line 85: the surface height
`z = gamma/100 * np.exp(-delta/100 * x) + (entropy/100) * np.sin(2 * np.pi * y)`,
as a function of the three raw indicators and the grid coordinates. -/
noncomputable def z (g d e x y : ℝ) : ℝ :=
  g / 100 * Real.exp (-d / 100 * x) + e / 100 * Real.sin (2 * Real.pi * y)

/-- Lines 82-83 sample both axes with `np.linspace(0, 1, R)`, whose `i`-th
point is `i / (R - 1)`.  The script instantiates the resolution at `R = 50`. -/
noncomputable def gridCoord (R i : ℕ) : ℝ :=
  (i : ℝ) / ((R - 1 : ℕ) : ℝ)

/-- The sampled height field: `z` evaluated at the `(i, j)` grid point of an
`R × R` linspace grid over the unit square (lines 82-85). -/
noncomputable def surfaceZ (g d e : ℝ) (R i j : ℕ) : ℝ :=
  z g d e (gridCoord R i) (gridCoord R j)

/-- C1: with all 14 inputs in [0,100], every derived indicator lies in
[0,100]; γ, Θ, μ are floored at 0 by the `max(0, ·)`, and δ, ∇S are
averages of non-negative inputs, hence non-negative. -/
theorem derived_indicators_in_range (s : InputScores) (h : InBounds s) :
    (0 ≤ gamma s ∧ gamma s ≤ 100) ∧
    (0 ≤ delta s ∧ delta s ≤ 100) ∧
    (0 ≤ theta s ∧ theta s ≤ 100) ∧
    (0 ≤ mu s ∧ mu s ≤ 100) ∧
    (0 ≤ entropy s ∧ entropy s ≤ 100) := by
  obtain ⟨h1, h1u, h2, h2u, h3, h3u, h4, h4u, h5, h5u, h6, h6u, h7, h7u,
    h8, h8u, h9, h9u, h10, h10u, h11, h11u, h12, h12u, h13, h13u, h14, h14u⟩ := h
  unfold gamma delta theta mu entropy
  refine ⟨⟨le_max_left _ _, max_le (by norm_num) (by linarith)⟩,
    ⟨by positivity, by linarith⟩,
    ⟨le_max_left _ _, max_le (by norm_num) (by linarith)⟩,
    ⟨le_max_left _ _, max_le (by norm_num) (by linarith)⟩,
    ⟨by positivity, by linarith⟩⟩

/-- Witness for `derived_indicators_in_range` at the all-50 default. -/
theorem derived_indicators_in_range_witness :
    InBounds (scoresAll 50) ∧
      ((0 ≤ gamma (scoresAll 50) ∧ gamma (scoresAll 50) ≤ 100) ∧
       (0 ≤ delta (scoresAll 50) ∧ delta (scoresAll 50) ≤ 100) ∧
       (0 ≤ theta (scoresAll 50) ∧ theta (scoresAll 50) ≤ 100) ∧
       (0 ≤ mu (scoresAll 50) ∧ mu (scoresAll 50) ≤ 100) ∧
       (0 ≤ entropy (scoresAll 50) ∧ entropy (scoresAll 50) ≤ 100)) :=
  ⟨by decide, derived_indicators_in_range (scoresAll 50) (by decide)⟩

/-- C2: the spec's boundary and default test vectors. All inputs 0 gives
γ=100, δ=0, Θ=100, μ=100, ∇S=0; all inputs 100 gives γ=0, δ=100, Θ=0,
μ=0, ∇S=100; all inputs 50 gives γ=37.5, δ=50, Θ=50, μ=50, ∇S=50. -/
theorem derive_test_vectors :
    deriveIndicators (scoresAll 0) = ⟨100, 0, 100, 100, 0⟩ ∧
    deriveIndicators (scoresAll 100) = ⟨0, 100, 0, 0, 100⟩ ∧
    deriveIndicators (scoresAll 50) = ⟨75 / 2, 50, 50, 50, 50⟩ := by
  refine ⟨?_, ?_, ?_⟩ <;>
    · simp only [deriveIndicators, gamma, delta, theta, mu, entropy, scoresAll,
        DerivedIndicators.mk.injEq]
      norm_num [max_eq_right, max_eq_left]

/-- Band behavior of the `value < 40 / value < 70` branch shape shared by
the γ, Θ and μ cases of `get_color`. -/
lemma ascBand (v : ℚ) :
    ((if v < 40 then "crimson" else if v < 70 then "gold" else "limegreen") = "crimson" ↔ v < 40) ∧
    ((if v < 40 then "crimson" else if v < 70 then "gold" else "limegreen") = "gold" ↔ 40 ≤ v ∧ v < 70) ∧
    ((if v < 40 then "crimson" else if v < 70 then "gold" else "limegreen") = "limegreen" ↔ 70 ≤ v) := by
  split_ifs with h1 h2 <;> simp_all <;> linarith

/-- Band behavior of the `value > 60 / value > 30` branch shape shared by
the δ and ∇S cases of `get_color`. -/
lemma descBand (v : ℚ) :
    ((if v > 60 then "crimson" else if v > 30 then "gold" else "limegreen") = "crimson" ↔ 60 < v) ∧
    ((if v > 60 then "crimson" else if v > 30 then "gold" else "limegreen") = "gold" ↔ 30 < v ∧ v ≤ 60) ∧
    ((if v > 60 then "crimson" else if v > 30 then "gold" else "limegreen") = "limegreen" ↔ v ≤ 30) := by
  split_ifs with h1 h2 <;> simp_all <;> linarith

/-- C3: for every value, `get_color` on γ, Θ, μ is crimson iff v < 40, gold
iff 40 ≤ v < 70, limegreen iff v ≥ 70; on δ, ∇S it is crimson iff v > 60,
gold iff 30 < v ≤ 60, limegreen iff v ≤ 30; and at the boundaries, 40 on γ
is gold, 70 on γ is limegreen, 60 on δ is gold. -/
theorem get_color_thresholds (v : ℚ) :
    ((get_color v "γ" = "crimson" ↔ v < 40) ∧
     (get_color v "γ" = "gold" ↔ 40 ≤ v ∧ v < 70) ∧
     (get_color v "γ" = "limegreen" ↔ 70 ≤ v)) ∧
    ((get_color v "Θ" = "crimson" ↔ v < 40) ∧
     (get_color v "Θ" = "gold" ↔ 40 ≤ v ∧ v < 70) ∧
     (get_color v "Θ" = "limegreen" ↔ 70 ≤ v)) ∧
    ((get_color v "μ" = "crimson" ↔ v < 40) ∧
     (get_color v "μ" = "gold" ↔ 40 ≤ v ∧ v < 70) ∧
     (get_color v "μ" = "limegreen" ↔ 70 ≤ v)) ∧
    ((get_color v "δ" = "crimson" ↔ 60 < v) ∧
     (get_color v "δ" = "gold" ↔ 30 < v ∧ v ≤ 60) ∧
     (get_color v "δ" = "limegreen" ↔ v ≤ 30)) ∧
    ((get_color v "∇S" = "crimson" ↔ 60 < v) ∧
     (get_color v "∇S" = "gold" ↔ 30 < v ∧ v ≤ 60) ∧
     (get_color v "∇S" = "limegreen" ↔ v ≤ 30)) ∧
    (get_color 40 "γ" = "gold" ∧ get_color 70 "γ" = "limegreen" ∧
     get_color 60 "δ" = "gold") :=
  ⟨ascBand v, ascBand v, ascBand v, descBand v, descBand v,
    by norm_num [get_color], by norm_num [get_color], by norm_num [get_color]⟩

/-- C4: on any of the 5 recognized indicator names, `get_color` returns
one of the three normal colors; the gray fallback is unreachable. -/
theorem get_color_total (v : ℚ) (name : String)
    (h : name = "γ" ∨ name = "δ" ∨ name = "Θ" ∨ name = "μ" ∨ name = "∇S") :
    get_color v name = "crimson" ∨ get_color v name = "gold" ∨
      get_color v name = "limegreen" := by
  rcases h with rfl | rfl | rfl | rfl | rfl <;> unfold get_color <;>
    split_ifs <;> simp_all

/-- Witness for `get_color_total` at value 50 and name γ. -/
theorem get_color_total_witness :
    get_color 50 "γ" = "crimson" ∨ get_color 50 "γ" = "gold" ∨
      get_color 50 "γ" = "limegreen" :=
  get_color_total 50 "γ" (Or.inl rfl)

/-- C5: on any name outside the 5 recognized indicator names, `get_color`
returns the neutral default color gray, for every value. -/
theorem get_color_unknown_gray (v : ℚ) (name : String)
    (h1 : name ≠ "γ") (h2 : name ≠ "δ") (h3 : name ≠ "Θ")
    (h4 : name ≠ "μ") (h5 : name ≠ "∇S") :
    get_color v name = "gray" := by
  simp [get_color, h1, h2, h3, h4, h5]

/-- Witness for `get_color_unknown_gray` at value 0 and name "x". -/
theorem get_color_unknown_gray_witness : get_color 0 "x" = "gray" :=
  get_color_unknown_gray 0 "x" (by decide) (by decide) (by decide)
    (by decide) (by decide)

/-- C9: the derivation is deterministic: the output depends only on the 14
input fields, so two evaluations on equal inputs agree. -/
theorem derive_deterministic (s t : InputScores)
    (h1 : s.eid = t.eid) (h2 : s.bxd = t.bxd) (h3 : s.thd = t.thd)
    (h4 : s.intr = t.intr) (h5 : s.somc = t.somc) (h6 : s.cog = t.cog)
    (h7 : s.impulsivity = t.impulsivity) (h8 : s.support = t.support)
    (h9 : s.pclr_aff = t.pclr_aff) (h10 : s.pclr_antisocial = t.pclr_antisocial)
    (h11 : s.pai_agg = t.pai_agg) (h12 : s.pai_bor = t.pai_bor)
    (h13 : s.mcmi_antisocial = t.mcmi_antisocial)
    (h14 : s.mcmi_borderline = t.mcmi_borderline) :
    deriveIndicators s = deriveIndicators t := by
  have hst : s = t := by cases s; cases t; simp_all
  rw [hst]

/-- Witness for `derive_deterministic`: two evaluations at the default
all-50 input coincide. -/
theorem derive_deterministic_witness :
    deriveIndicators (scoresAll 50) = deriveIndicators (scoresAll 50) :=
  derive_deterministic (scoresAll 50) (scoresAll 50) rfl rfl rfl rfl rfl rfl
    rfl rfl rfl rfl rfl rfl rfl rfl

/-- C10: the bar-chart dispatch passes only the first character of each
label to `get_color`; the first four bars therefore get their thresholded
colors, while the ∇S bar's first character '∇' matches no branch, so that
bar is always gray. -/
theorem entropy_bar_always_gray (s : InputScores) :
    rcd_colors s = [get_color (gamma s) "γ", get_color (delta s) "δ",
      get_color (theta s) "Θ", get_color (mu s) "μ", "gray"] := rfl

/-- C6: at every sampled grid point of the default 50×50 grid the
coordinates lie in [0,1] and the sampled height is
`(γ/100)·exp(−(δ/100)·x) + (∇S/100)·sin(2π·y)`; at the origin the height
is the normalized γ, since `exp 0 = 1` and `sin 0 = 0`. -/
theorem surface_formula (g d e : ℝ) (i j : ℕ) (hi : i < 50) (hj : j < 50) :
    (0 ≤ gridCoord 50 i ∧ gridCoord 50 i ≤ 1) ∧
    (0 ≤ gridCoord 50 j ∧ gridCoord 50 j ≤ 1) ∧
    surfaceZ g d e 50 i j =
      g / 100 * Real.exp (-(d / 100) * gridCoord 50 i) +
        e / 100 * Real.sin (2 * Real.pi * gridCoord 50 j) ∧
    z g d e 0 0 = g / 100 := by
  have hcoord : ∀ k : ℕ, k < 50 → 0 ≤ gridCoord 50 k ∧ gridCoord 50 k ≤ 1 := by
    intro k hk
    unfold gridCoord
    norm_num
    constructor
    · positivity
    · rw [div_le_one (by norm_num)]
      exact_mod_cast Nat.le_of_lt_succ hk
  refine ⟨hcoord i hi, hcoord j hj, ?_, ?_⟩
  · unfold surfaceZ z
    rw [neg_div]
  · simp [z]

/-- Witness for `surface_formula` at γ=δ=∇S=1 and the origin grid point. -/
theorem surface_formula_witness :
    (0 < 50 ∧ 0 < 50) ∧
    ((0 ≤ gridCoord 50 0 ∧ gridCoord 50 0 ≤ 1) ∧
     (0 ≤ gridCoord 50 0 ∧ gridCoord 50 0 ≤ 1) ∧
     surfaceZ 1 1 1 50 0 0 =
       1 / 100 * Real.exp (-(1 / 100) * gridCoord 50 0) +
         1 / 100 * Real.sin (2 * Real.pi * gridCoord 50 0) ∧
     z 1 1 1 0 0 = 1 / 100) :=
  ⟨⟨by norm_num, by norm_num⟩,
    surface_formula 1 1 1 0 0 (by norm_num) (by norm_num)⟩

/-- C7: for non-negative γ, δ and any fixed y, the height is non-increasing
in x over [0,1] (the exponential envelope decays and the sine term does not
depend on x); in y the height has period 1, and over one period it swings
through the full amplitude: the heights at y = 1/4 and y = 3/4 differ by
exactly `2·(∇S/100)`. -/
theorem surface_monotone_periodic (g d e x x1 x2 y : ℝ)
    (hg : 0 ≤ g) (hd : 0 ≤ d) (hx1 : 0 ≤ x1) (h12 : x1 ≤ x2) (hx2 : x2 ≤ 1) :
    z g d e x2 y ≤ z g d e x1 y ∧
    z g d e x (y + 1) = z g d e x y ∧
    z g d e x (1 / 4) - z g d e x (3 / 4) = 2 * (e / 100) := by
  refine ⟨?_, ?_, ?_⟩
  · unfold z
    have hexp : Real.exp (-d / 100 * x2) ≤ Real.exp (-d / 100 * x1) := by
      apply Real.exp_le_exp.mpr
      nlinarith
    have := mul_le_mul_of_nonneg_left hexp (by positivity : (0:ℝ) ≤ g / 100)
    linarith
  · unfold z
    rw [show 2 * Real.pi * (y + 1) = 2 * Real.pi * y + 2 * Real.pi by ring,
      Real.sin_add_two_pi]
  · unfold z
    rw [show 2 * Real.pi * (1 / 4) = Real.pi / 2 by ring,
      show 2 * Real.pi * (3 / 4) = -(Real.pi / 2) + 2 * Real.pi by ring,
      Real.sin_add_two_pi, Real.sin_neg, Real.sin_pi_div_two]
    ring

/-- Witness for `surface_monotone_periodic` at γ=δ=∇S=1, x-interval [0,1],
y = 0. -/
theorem surface_monotone_periodic_witness :
    ((0:ℝ) ≤ 1 ∧ (0:ℝ) ≤ 1 ∧ (0:ℝ) ≤ 0 ∧ (0:ℝ) ≤ 1 ∧ (1:ℝ) ≤ 1) ∧
    (z 1 1 1 1 0 ≤ z 1 1 1 0 0 ∧
     z 1 1 1 0 (0 + 1) = z 1 1 1 0 0 ∧
     z 1 1 1 0 (1 / 4) - z 1 1 1 0 (3 / 4) = 2 * (1 / 100)) :=
  ⟨⟨by norm_num, by norm_num, by norm_num, by norm_num, by norm_num⟩,
    surface_monotone_periodic 1 1 1 0 0 1 0 (by norm_num) (by norm_num)
      (by norm_num) (by norm_num) (by norm_num)⟩

/-- C8: the height formula does not depend on the resolution: if two grids
of resolutions R and R' sample the same coordinates, the heights there are
identical — resolution changes only which points are sampled. -/
theorem surface_resolution_invariant (g d e : ℝ) (R R' i j i' j' : ℕ)
    (hx : gridCoord R i = gridCoord R' i')
    (hy : gridCoord R j = gridCoord R' j') :
    surfaceZ g d e R i j = surfaceZ g d e R' i' j' := by
  unfold surfaceZ
  rw [hx, hy]

/-- Witness for `surface_resolution_invariant`: the origin is sampled by
both the default resolution-50 grid and a resolution-99 grid, with the same
height. -/
theorem surface_resolution_invariant_witness :
    (gridCoord 50 0 = gridCoord 99 0 ∧ gridCoord 50 0 = gridCoord 99 0) ∧
    surfaceZ 2 3 5 50 0 0 = surfaceZ 2 3 5 99 0 0 :=
  ⟨⟨by simp [gridCoord], by simp [gridCoord]⟩,
    surface_resolution_invariant 2 3 5 50 99 0 0 0 0 (by simp [gridCoord])
      (by simp [gridCoord])⟩
